import Mathlib

/-!
Shallow embedding of the `testdj` lobby core (package `dj` and the lobby
handlers of package `service`).

Modelling conventions:
* `safemap.SafeMap[string, V]` is modelled as an association list with
  string keys (`SMap`); `Set` replaces an existing entry in place and
  otherwise prepends, `Delete` filters the key out, `Length` is the number
  of entries, matching Go map semantics on duplicate-free states.
* `time.Time` and `time.Duration` are both modelled as `Int` nanoseconds;
  `time.Now()` becomes an explicit `now : Int` argument threaded through
  every operation that reads the clock.
* `rand.Intn(n)` becomes an explicit `rnd : Nat` argument reduced mod `n`.
* `time.Timer` state is modelled by the fields `nextTimerArmed`
  (the duration the completion timer was last armed with, `none` when
  stopped), `voteSkipTimerArmed` and `voteMuteTimerArmed`.
* `Broadcast(event, data)` is modelled by returning the list of emitted
  `(event, data)` pairs alongside the new lobby state; `json.Marshal` of
  the video-update payload is modelled by the deterministic serializer
  `marshalState`.
* A Go nil-pointer dereference (reading `l.CurrentVideo.ID` when
  `CurrentVideo` is nil) is modelled by returning `none` from the
  operation; total operations cannot panic.
-/

namespace TestDJ

/-- Association-list model of `safemap.SafeMap` keyed by strings. -/
structure SMap (α : Type) where
  entries : List (String × α)
deriving Repr, DecidableEq

namespace SMap

def empty {α : Type} : SMap α := ⟨[]⟩

/-- `SafeMap.Get`. -/
def Get {α : Type} (m : SMap α) (k : String) : Option α :=
  (m.entries.find? (fun p => p.1 == k)).map (·.2)

/-- `SafeMap.Exists` (named `ExistsKey` to avoid clashing with `Exists`). -/
def ExistsKey {α : Type} (m : SMap α) (k : String) : Bool :=
  m.entries.any (fun p => p.1 == k)

/-- `SafeMap.Set`: replace in place when the key is present, else add. -/
def Set {α : Type} (m : SMap α) (k : String) (v : α) : SMap α :=
  if m.ExistsKey k then
    ⟨m.entries.map (fun p => if p.1 == k then (k, v) else p)⟩
  else
    ⟨(k, v) :: m.entries⟩

/-- `SafeMap.Delete`. -/
def Delete {α : Type} (m : SMap α) (k : String) : SMap α :=
  ⟨m.entries.filter (fun p => p.1 != k)⟩

/-- `SafeMap.Length`. -/
def Length {α : Type} (m : SMap α) : Nat := m.entries.length

/-- `SafeMap.Clear`. -/
def Clear {α : Type} (_ : SMap α) : SMap α := ⟨[]⟩

def keys {α : Type} (m : SMap α) : List String := m.entries.map (·.1)

end SMap

/-- One nanosecond-denominated second (`time.Second`). -/
def secondNs : Int := 1000000000

/-- `time.Hour` in nanoseconds. -/
def hourNs : Int := 3600 * secondNs

/-- `10 * time.Minute` in nanoseconds. -/
def tenMinutesNs : Int := 600 * secondNs

/-- `5 * time.Minute` in nanoseconds. -/
def fiveMinutesNs : Int := 300 * secondNs

/-- `dj.Video`.  The two derived flags `WasVoted` / `WasSkipped` are the
ones written by `EndVoteSkip` and `HandleVoteSkipStart`. -/
structure Video where
  ID : String
  URL : String
  Title : String
  SubmitterID : String
  SubmitterName : String
  Duration : Int
  WasVoted : Bool
  WasSkipped : Bool
deriving Repr, DecidableEq, Inhabited

/-- `dj.User` (the `SSE` connection handle is external and omitted). -/
structure User where
  ID : String
  Name : String
  IP : String
  LobbyID : String
  SessionID : String
  MutedUntil : Int
  LastActivity : Int
  PendingLogout : Int
deriving Repr, DecidableEq, Inhabited

/-- `dj.VoteSkipStatus`. -/
structure VoteSkipStatus where
  VideoID : String
  StartedAt : Int
  YesVotes : SMap Bool
  NoVotes : SMap Bool
  Active : Bool
deriving Repr, DecidableEq

/-- `dj.VoteMuteStatus`. -/
structure VoteMuteStatus where
  TargetID : String
  TargetName : String
  Initiator : String
  StartedAt : Int
  YesVotes : SMap Bool
  NoVotes : SMap Bool
  Active : Bool
deriving Repr, DecidableEq

/-- `dj.Lobby`.  `UsersBySession` maps a session id to the user id (Go
stores a shared `*User` pointer; identity is modelled by the id). -/
structure Lobby where
  ID : String
  Mode : String
  CreatorIP : String
  LobbyQueueLimit : Nat
  UserQueueLimit : Nat
  CreatedAt : Int
  VideoStart : Int
  ExpiresAt : Int
  Users : SMap User
  UsersBySession : SMap String
  MutesByIP : SMap Int
  MuteCooldownsByIP : SMap Int
  Videos : List Video
  CurrentVideo : Option Video
  PlayedVideos : SMap Int
  VoteSkip : VoteSkipStatus
  VoteMute : VoteMuteStatus
  nextTimerArmed : Option Int
  voteSkipTimerArmed : Bool
  voteMuteTimerArmed : Bool
deriving Repr, DecidableEq

/-- A broadcast `(event, data)` pair. -/
abbrev Event := String × String

def UpdateVoteSkip : String := "vote_skip_update"
def UpdateVoteSkipEnd : String := "vote_skip_end"
def UpdateVoteMute : String := "vote_mute_update"
def UpdateVoteMuteEnd : String := "vote_mute_end"

def ToastSuccess : String := "success"
def ToastError : String := "error"

/-- `formatToast` of the Go source, built by string concatenation. -/
def formatToast (message kind : String) : String :=
  "\x7b\"toast\":\x7b\"message\":\"" ++ message ++ "\", \"type\":\"" ++ kind ++ "\"\x7d\x7d"

/-- Deterministic stand-in for `json.Marshal` of the video-update state
map (url, mode, remaining playlist). -/
def marshalState (url mode : String) (playlist : List Video) : String :=
  "\x7b\"mode\":\"" ++ mode ++ "\",\"playlist\":[" ++
    String.intercalate "," (playlist.map (fun v => "\"" ++ v.ID ++ "\"")) ++
    "],\"url\":\"" ++ url ++ "\"\x7d"

/-- `dj.NewLobby` (timers start disarmed; registries empty;
`LobbyQueueLimit` is never assigned in the source, so it keeps the Go
zero value). -/
def NewLobby (mode : String) (maxQueue : Nat) (creatorIP : String) (now : Int)
    (id : String) : Lobby :=
  { ID := id, Mode := mode, CreatorIP := creatorIP,
    LobbyQueueLimit := 0, UserQueueLimit := maxQueue,
    CreatedAt := now, VideoStart := 0, ExpiresAt := now + hourNs,
    Users := SMap.empty, UsersBySession := SMap.empty,
    MutesByIP := SMap.empty, MuteCooldownsByIP := SMap.empty,
    Videos := [], CurrentVideo := none, PlayedVideos := SMap.empty,
    VoteSkip := { VideoID := "", StartedAt := 0, YesVotes := SMap.empty,
                  NoVotes := SMap.empty, Active := false },
    VoteMute := { TargetID := "", TargetName := "", Initiator := "",
                  StartedAt := 0, YesVotes := SMap.empty,
                  NoVotes := SMap.empty, Active := false },
    nextTimerArmed := none, voteSkipTimerArmed := false,
    voteMuteTimerArmed := false }

/-- `Lobby.Touch`: reset the idle-expiry deadline one hour out. -/
def Lobby.Touch (l : Lobby) (now : Int) : Lobby :=
  { l with ExpiresAt := now + hourNs }

/-- `Lobby.PickNextVideo` (lobby.go): stop the completion timer, cancel
any active skip vote, then either clear `CurrentVideo` (empty queue) or
select index 0 (linear) / `rnd mod len` (shuffle), remove it from the
queue, add it to the play history one hour out, make it current, record
the play start and re-arm the completion timer with its duration. -/
def Lobby.PickNextVideo (l : Lobby) (now : Int) (rnd : Nat) : Lobby × List Event :=
  let l1 : Lobby := { l with nextTimerArmed := none }
  let l2 : Lobby :=
    if l1.VoteSkip.Active then
      { l1 with
          voteSkipTimerArmed := false,
          VoteSkip := { l1.VoteSkip with
                          Active := false,
                          NoVotes := l1.VoteSkip.NoVotes.Clear,
                          YesVotes := l1.VoteSkip.YesVotes.Clear,
                          VideoID := "",
                          StartedAt := 0 } }
    else l1
  if l2.Videos.isEmpty then
    ({ l2 with CurrentVideo := none }, [("video_update", "")])
  else
    let idx : Nat := if l2.Mode == "shuffle" then rnd % l2.Videos.length else 0
    let next := l2.Videos.getD idx default
    let l3 : Lobby := { l2 with
      Videos := l2.Videos.take idx ++ l2.Videos.drop (idx + 1),
      PlayedVideos := l2.PlayedVideos.Set next.ID (now + hourNs),
      CurrentVideo := some next,
      VideoStart := now }
    ({ l3 with nextTimerArmed := some next.Duration },
     [("video_update", marshalState next.URL l3.Mode l3.Videos)])

/-- `strings.ToLower`, modelled character-wise (adequate for the ASCII
names the handlers admit); written over the character list so that it
evaluates inside the kernel. -/
def strToLower (s : String) : String := ⟨s.data.map Char.toLower⟩

/-- `Lobby.AddUser`: count existing members whose stored name matches the
joining name case-insensitively; when any match exists, suffix the name
with `#` and the count plus one; register the user by id and by session;
inherit an active by-IP mute. -/
def Lobby.AddUser (l : Lobby) (user : User) : Lobby × User × List Event :=
  let dupCount : Nat :=
    1 + (l.Users.entries.filter
          (fun p => strToLower p.2.Name == strToLower user.Name)).length
  let user1 : User :=
    if dupCount > 1 then { user with Name := user.Name ++ "#" ++ toString dupCount }
    else user
  let user2 : User := { user1 with LobbyID := l.ID }
  let user3 : User :=
    match l.MutesByIP.Get user2.IP with
    | some mute => { user2 with MutedUntil := mute }
    | none => user2
  ({ l with
      Users := l.Users.Set user3.ID user3,
      UsersBySession := l.UsersBySession.Set user3.SessionID user3.ID },
   user3, [("users_update", "")])

/-- `Lobby.RemoveUser` (the SSE redirect is external and omitted). -/
def Lobby.RemoveUser (l : Lobby) (user : User) : Lobby × List Event :=
  if l.Users.ExistsKey user.ID then
    ({ l with Users := l.Users.Delete user.ID }, [("users_update", "")])
  else (l, [])

/-- `Lobby.CheckVideoQueued`. -/
def Lobby.CheckVideoQueued (l : Lobby) (videoId : String) : Bool :=
  l.Videos.any (fun v => v.ID == videoId)

/-- `Lobby.CheckUserVideoLimit`. -/
def Lobby.CheckUserVideoLimit (l : Lobby) (user : User) : Bool :=
  decide (l.UserQueueLimit ≤
    (l.Videos.filter (fun v => v.SubmitterID == user.ID)).length)

/-- `Lobby.AddVideo`: append to the queue; advance immediately when
nothing is playing, otherwise just notify; then touch the lobby. -/
def Lobby.AddVideo (l : Lobby) (video : Video) (now : Int) (rnd : Nat) :
    Lobby × List Event :=
  let l1 : Lobby := { l with Videos := l.Videos ++ [video] }
  let r :=
    if l1.CurrentVideo.isNone then l1.PickNextVideo now rnd
    else (l1, [("playlist_update", "")])
  (r.1.Touch now, r.2)

/-- `Lobby.CleanupPlayedVideos`: drop history entries whose eligibility
time has passed. -/
def Lobby.CleanupPlayedVideos (l : Lobby) (now : Int) : Lobby :=
  { l with PlayedVideos := ⟨l.PlayedVideos.entries.filter (fun p => !decide (p.2 < now))⟩ }

/-- `Lobby.CleanupMuteExpirations`: drop expired mute cooldowns and
expired by-IP mutes, notifying when anything changed. -/
def Lobby.CleanupMuteExpirations (l : Lobby) (now : Int) : Lobby × List Event :=
  let cds := l.MuteCooldownsByIP.entries.filter (fun p => !decide (p.2 < now))
  let mutes := l.MutesByIP.entries.filter (fun p => !decide (p.2 < now))
  let changed := cds.length != l.MuteCooldownsByIP.entries.length ||
                 mutes.length != l.MutesByIP.entries.length
  ({ l with MuteCooldownsByIP := ⟨cds⟩, MutesByIP := ⟨mutes⟩ },
   if changed then [("users_update", "")] else [])

/-- `Lobby.StartVoteSkip`: refused when a skip vote is active or nothing
is playing; otherwise activate, record the current video id and the
initiator's yes vote, and arm the 30-second timer. -/
def Lobby.StartVoteSkip (l : Lobby) (user : User) (now : Int) :
    Lobby × List Event × Bool :=
  if l.VoteSkip.Active || l.CurrentVideo.isNone then (l, [], false)
  else
    ({ l with
        VoteSkip := { l.VoteSkip with
                        Active := true,
                        VideoID := (l.CurrentVideo.getD default).ID,
                        YesVotes := l.VoteSkip.YesVotes.Set user.ID true,
                        StartedAt := now },
        voteSkipTimerArmed := true },
     [(UpdateVoteSkip, "")], true)

/-- `Lobby.StartVoteMute`: refused when the target id is not a member;
otherwise set the initiator's five-minute cooldown (waived for the
creator IP), activate the vote with the initiator's yes vote, and arm
the timer. -/
def Lobby.StartVoteMute (l : Lobby) (user : User) (targetID : String) (now : Int) :
    Lobby × List Event × Bool :=
  match l.Users.entries.find? (fun p => p.2.ID == targetID) with
  | none => (l, [], false)
  | some p =>
    let targetUser := p.2
    let l1 : Lobby :=
      if user.IP != l.CreatorIP then
        { l with MuteCooldownsByIP := l.MuteCooldownsByIP.Set user.IP (now + fiveMinutesNs) }
      else l
    ({ l1 with
        VoteMute := { l1.VoteMute with
                        Active := true,
                        TargetID := targetUser.ID,
                        TargetName := targetUser.Name,
                        Initiator := user.ID,
                        YesVotes := l1.VoteMute.YesVotes.Set user.ID true,
                        StartedAt := now },
        voteMuteTimerArmed := true },
     [(UpdateVoteMute, "")], true)

/-- `Lobby.EndVoteSkip`: stop the timer; on success add the current
video to the play history and advance, on failure mark it as having
survived the vote; clear the vote record and toast the outcome. -/
def Lobby.EndVoteSkip (l : Lobby) (succeeded : Bool) (now : Int) (rnd : Nat) :
    Lobby × List Event :=
  let l0 : Lobby := { l with voteSkipTimerArmed := false }
  let r : Lobby × List Event :=
    match l0.CurrentVideo with
    | some cv =>
      if succeeded then
        Lobby.PickNextVideo
          { l0 with PlayedVideos := l0.PlayedVideos.Set cv.ID (now + hourNs) } now rnd
      else
        ({ l0 with CurrentVideo := some { cv with WasVoted := true } }, [])
    | none => (l0, [])
  let l2 : Lobby := { r.1 with
    VoteSkip := { r.1.VoteSkip with
                    Active := false,
                    VideoID := "",
                    StartedAt := 0,
                    NoVotes := r.1.VoteSkip.NoVotes.Clear,
                    YesVotes := r.1.VoteSkip.YesVotes.Clear } }
  (l2, r.2 ++ [(UpdateVoteSkipEnd,
    if succeeded then formatToast "Vote to skip passed!" ToastSuccess
    else formatToast "Vote to skip failed." ToastError)])

/-- `Lobby.CalcVoteSkipResult`: a no-op unless a skip vote is active for
the current video (dereferencing `CurrentVideo`, hence `Option`); the
vote succeeds when at least 2 yes votes strictly outnumber no votes. -/
def Lobby.CalcVoteSkipResult (l : Lobby) (now : Int) (rnd : Nat) :
    Option (Lobby × List Event × Bool) :=
  if !l.VoteSkip.Active then some (l, [], false)
  else
    match l.CurrentVideo with
    | none => none
    | some cv =>
      if l.VoteSkip.VideoID != cv.ID then some (l, [], false)
      else
        let succeeded := decide (2 ≤ l.VoteSkip.YesVotes.Length) &&
                         decide (l.VoteSkip.NoVotes.Length < l.VoteSkip.YesVotes.Length)
        let r := l.EndVoteSkip succeeded now rnd
        some (r.1, r.2, true)

/-- `Lobby.RecordSkipVote`: overwrite the voter's entry, keeping the two
sets disjoint; resolve early once yes votes reach `(members+1)/2`
(Go integer division), else broadcast the running status. -/
def Lobby.RecordSkipVote (l : Lobby) (user : User) (vote : String) (now : Int) (rnd : Nat) :
    Option (Lobby × List Event × Bool) :=
  if !l.VoteSkip.Active then some (l, [], false)
  else
    match l.CurrentVideo with
    | none => none
    | some cv =>
      if l.VoteSkip.VideoID != cv.ID then some (l, [], false)
      else
        let vs : VoteSkipStatus :=
          if vote == "yes" then
            { l.VoteSkip with
                YesVotes := l.VoteSkip.YesVotes.Set user.ID true,
                NoVotes := l.VoteSkip.NoVotes.Delete user.ID }
          else
            { l.VoteSkip with
                NoVotes := l.VoteSkip.NoVotes.Set user.ID true,
                YesVotes := l.VoteSkip.YesVotes.Delete user.ID }
        let l1 : Lobby := { l with VoteSkip := vs }
        if (l1.Users.Length + 1) / 2 ≤ vs.YesVotes.Length then
          l1.CalcVoteSkipResult now rnd
        else
          some (l1,
            [if l1.VoteSkip.Active then (UpdateVoteSkip, "") else (UpdateVoteSkipEnd, "")],
            true)

/-- `Lobby.EndVoteMute`: stop the timer; on success set the target's
mute expiry ten minutes out and record it by IP; clear the vote record
and toast the outcome. -/
def Lobby.EndVoteMute (l : Lobby) (succeeded : Bool) (now : Int) :
    Lobby × List Event :=
  let l0 : Lobby := { l with voteMuteTimerArmed := false }
  let l1 : Lobby :=
    if succeeded then
      match l0.Users.Get l0.VoteMute.TargetID with
      | some u =>
        { l0 with
            Users := l0.Users.Set u.ID { u with MutedUntil := now + tenMinutesNs },
            MutesByIP := l0.MutesByIP.Set u.IP (now + tenMinutesNs) }
      | none => l0
    else l0
  let name := l1.VoteMute.TargetName
  let l2 : Lobby := { l1 with
    VoteMute := { l1.VoteMute with
                    Active := false,
                    TargetID := "",
                    TargetName := "",
                    Initiator := "",
                    StartedAt := 0,
                    NoVotes := l1.VoteMute.NoVotes.Clear,
                    YesVotes := l1.VoteMute.YesVotes.Clear } }
  (l2, [(UpdateVoteMuteEnd,
    if succeeded then formatToast ("Vote to mute " ++ name ++ " passed!") ToastSuccess
    else formatToast ("Vote to mute " ++ name ++ " failed.") ToastError)])

/-- `Lobby.CalcVoteMuteResult`: a no-op unless a mute vote is active;
the vote succeeds when yes votes reach `(members+1)/2` (Go integer
division). -/
def Lobby.CalcVoteMuteResult (l : Lobby) (now : Int) : Lobby × List Event × Bool :=
  if !l.VoteMute.Active then (l, [], false)
  else
    let succeeded := decide ((l.Users.Length + 1) / 2 ≤ l.VoteMute.YesVotes.Length)
    let r := l.EndVoteMute succeeded now
    (r.1, r.2, true)

/-- `Lobby.RecordMuteVote`: overwrite the voter's entry, keeping the two
sets disjoint; resolve early once yes votes exceed `(members+2)/2`
(Go integer division), else broadcast the running status. -/
def Lobby.RecordMuteVote (l : Lobby) (user : User) (vote : String) (now : Int) :
    Lobby × List Event × Bool :=
  if !l.VoteMute.Active then (l, [], false)
  else
    let vm : VoteMuteStatus :=
      if vote == "yes" then
        { l.VoteMute with
            YesVotes := l.VoteMute.YesVotes.Set user.ID true,
            NoVotes := l.VoteMute.NoVotes.Delete user.ID }
      else
        { l.VoteMute with
            NoVotes := l.VoteMute.NoVotes.Set user.ID true,
            YesVotes := l.VoteMute.YesVotes.Delete user.ID }
    let l1 : Lobby := { l with VoteMute := vm }
    if (l1.Users.Length + 2) / 2 < vm.YesVotes.Length then
      l1.CalcVoteMuteResult now
    else
      (l1,
       [if l1.VoteMute.Active then (UpdateVoteMute, "") else (UpdateVoteMuteEnd, "")],
       true)

/-- Outcome of the `HandleVoteSkipStart` HTTP handler. -/
inductive SkipStartResult where
  | noVideo
  | survived
  | instantSkip
  | started
  | conflict
deriving Repr, DecidableEq

/-- `service.HandleVoteSkipStart`: reject when nothing is playing or the
video already survived a vote; with fewer than two members mark the
video skipped and advance immediately; otherwise start the vote. -/
def HandleVoteSkipStart (l : Lobby) (user : User) (now : Int) (rnd : Nat) :
    Lobby × List Event × SkipStartResult :=
  match l.CurrentVideo with
  | none => (l, [], .noVideo)
  | some cv =>
    if cv.WasVoted then (l, [], .survived)
    else if l.Users.Length < 2 then
      let r := Lobby.PickNextVideo
        { l with CurrentVideo := some { cv with WasSkipped := true } } now rnd
      (r.1, r.2, .instantSkip)
    else
      let r := l.StartVoteSkip user now
      (r.1, r.2.1, if r.2.2 then .started else .conflict)

/-- Outcome of the `HandleAddVideo` HTTP handler (after the external URL
validation and metadata fetch produced `videoId`, `title`, `dur`). -/
inductive AddVideoResult where
  | userMuted
  | tooLong
  | alreadyPlayed
  | alreadyQueued
  | limitReached
  | added
deriving Repr, DecidableEq

/-- `service.HandleAddVideo` (lobby-relevant core, after metadata fetch):
reject when muted, over ten minutes, in the play history, already
queued, or over the submitter's cap; otherwise enqueue. -/
def HandleAddVideo (l : Lobby) (user : User) (videoId title : String) (dur : Int)
    (now : Int) (rnd : Nat) : Lobby × List Event × AddVideoResult :=
  if now < user.MutedUntil then (l, [], .userMuted)
  else if tenMinutesNs < dur then (l, [], .tooLong)
  else if l.PlayedVideos.ExistsKey videoId then (l, [], .alreadyPlayed)
  else if l.CheckVideoQueued videoId then (l, [], .alreadyQueued)
  else if l.CheckUserVideoLimit user then (l, [], .limitReached)
  else
    let r := l.AddVideo
      { ID := videoId, Title := title,
        URL := "https://www.youtube.com/embed/" ++ videoId ++ "?autoplay=1",
        SubmitterID := user.ID, SubmitterName := user.Name, Duration := dur,
        WasVoted := false, WasSkipped := false } now rnd
    (r.1, r.2, .added)

/-! ### Transition system over the modelled lobby operations -/

/-- One lobby-mutating operation of the modelled API surface (request
handlers and timer callbacks). -/
inductive LobbyOp where
  | addUser (u : User)
  | removeUser (u : User)
  | addVideo (v : Video) (now : Int) (rnd : Nat)
  | pickNext (now : Int) (rnd : Nat)
  | startSkip (u : User) (now : Int)
  | startMute (u : User) (targetID : String) (now : Int)
  | recordSkip (u : User) (vote : String) (now : Int) (rnd : Nat)
  | recordMute (u : User) (vote : String) (now : Int)
  | calcSkip (now : Int) (rnd : Nat)
  | calcMute (now : Int)
  | skipStart (u : User) (now : Int) (rnd : Nat)
  | handleAdd (u : User) (videoId title : String) (dur now : Int) (rnd : Nat)
  | touch (now : Int)
  | cleanupPlayed (now : Int)
  | cleanupMutes (now : Int)

/-- State reached after one operation (a panicking operation, modelled
by `none`, produces no successor state and is treated as a stutter). -/
def Lobby.step (l : Lobby) (op : LobbyOp) : Lobby :=
  match op with
  | .addUser u => (l.AddUser u).1
  | .removeUser u => (l.RemoveUser u).1
  | .addVideo v now rnd => (l.AddVideo v now rnd).1
  | .pickNext now rnd => (l.PickNextVideo now rnd).1
  | .startSkip u now => (l.StartVoteSkip u now).1
  | .startMute u t now => (l.StartVoteMute u t now).1
  | .recordSkip u v now rnd =>
    match l.RecordSkipVote u v now rnd with
    | some r => r.1
    | none => l
  | .recordMute u v now => (l.RecordMuteVote u v now).1
  | .calcSkip now rnd =>
    match l.CalcVoteSkipResult now rnd with
    | some r => r.1
    | none => l
  | .calcMute now => (l.CalcVoteMuteResult now).1
  | .skipStart u now rnd => (HandleVoteSkipStart l u now rnd).1
  | .handleAdd u vid title dur now rnd => (HandleAddVideo l u vid title dur now rnd).1
  | .touch now => l.Touch now
  | .cleanupPlayed now => l.CleanupPlayedVideos now
  | .cleanupMutes now => (l.CleanupMuteExpirations now).1

/-- State reached after a sequence of operations. -/
def Lobby.run (l : Lobby) (ops : List LobbyOp) : Lobby := ops.foldl Lobby.step l

/-- A vote-recording operation (skip or mute ballot). -/
inductive RecOp where
  | skip (u : User) (vote : String) (now : Int) (rnd : Nat)
  | mute (u : User) (vote : String) (now : Int)

/-- State reached after recording one ballot. -/
def Lobby.stepRec (l : Lobby) (op : RecOp) : Lobby :=
  match op with
  | .skip u v now rnd =>
    match l.RecordSkipVote u v now rnd with
    | some r => r.1
    | none => l
  | .mute u v now => (l.RecordMuteVote u v now).1

/-- State reached after a sequence of ballots. -/
def Lobby.runRec (l : Lobby) (ops : List RecOp) : Lobby := ops.foldl Lobby.stepRec l

/-! ### Invariant definitions -/

/-- The keys of `yes` and `no` never overlap. -/
def SetsDisjoint (yes no : SMap Bool) : Prop :=
  ∀ k ∈ yes.keys, no.ExistsKey k = false

/-- Both vote records keep their yes/no sets disjoint. -/
def VoteSetsDisjoint (l : Lobby) : Prop :=
  SetsDisjoint l.VoteSkip.YesVotes l.VoteSkip.NoVotes ∧
  SetsDisjoint l.VoteMute.YesVotes l.VoteMute.NoVotes

/-- An active skip vote implies a video is playing (so the unguarded
`CurrentVideo.ID` dereferences cannot hit nil). -/
def SkipInv (l : Lobby) : Prop :=
  l.VoteSkip.Active = true → l.CurrentVideo.isSome = true

/-- An inactive skip vote has empty ballot sets (they are only populated
while a vote is active, and every resolution clears them). -/
def CleanInv (l : Lobby) : Prop :=
  l.VoteSkip.Active = false →
    l.VoteSkip.YesVotes.entries = [] ∧ l.VoteSkip.NoVotes.entries = []

/-! ### Concrete fixtures used by witnesses and counterexamples -/

def mkUser (i n ip : String) : User :=
  { ID := i, Name := n, IP := ip, LobbyID := "", SessionID := "s" ++ i,
    MutedUntil := 0, LastActivity := 0, PendingLogout := 0 }

def lobby0 : Lobby := NewLobby "linear" 5 "ip0" 0 "LOBBYID"

def vidA : Video :=
  { ID := "v1", URL := "u1", Title := "t1", SubmitterID := "a",
    SubmitterName := "A", Duration := 60 * secondNs,
    WasVoted := false, WasSkipped := false }

def vidB : Video :=
  { ID := "v2", URL := "u2", Title := "t2", SubmitterID := "b",
    SubmitterName := "B", Duration := 90 * secondNs,
    WasVoted := false, WasSkipped := false }

def fourUsers : List User :=
  [mkUser "a" "A" "ipa", mkUser "b" "B" "ipb", mkUser "c" "C" "ipc", mkUser "d" "D" "ipd"]

/-- Four members, a video playing, an active mute vote with two yes votes. -/
def lobbyMute4 : Lobby := { lobby0 with
  Users := ⟨fourUsers.map (fun u => (u.ID, u))⟩,
  CurrentVideo := some vidA,
  VoteMute := { lobby0.VoteMute with
                  Active := true,
                  TargetID := "d",
                  TargetName := "D",
                  Initiator := "a",
                  YesVotes := ⟨[("a", true), ("b", true)]⟩ } }

/-- Four members, a video playing, an active skip vote with one yes vote. -/
def lobbySkip4 : Lobby := { lobby0 with
  Users := ⟨fourUsers.map (fun u => (u.ID, u))⟩,
  CurrentVideo := some vidA,
  VoteSkip := { lobby0.VoteSkip with
                  Active := true,
                  VideoID := "v1",
                  YesVotes := ⟨[("a", true)]⟩ } }

/-- As `lobbySkip4` but with two yes votes already recorded. -/
def lobbySkip4Yes2 : Lobby := { lobbySkip4 with
  VoteSkip := { lobbySkip4.VoteSkip with
                  YesVotes := ⟨[("a", true), ("b", true)]⟩ } }

/-- One member, playing a video that already survived a skip vote. -/
def lobbySole : Lobby := { lobby0 with
  Users := ⟨[("a", mkUser "a" "A" "ipa")]⟩,
  CurrentVideo := some { vidA with WasVoted := true } }

/-- One member, playing a fresh video, one queued video. -/
def lobbySoleFresh : Lobby := { lobby0 with
  Users := ⟨[("a", mkUser "a" "A" "ipa")]⟩,
  CurrentVideo := some vidA,
  Videos := [vidB] }

/-- Empty queue with an active skip vote on the playing video. -/
def lobbyEmptyQueueVote : Lobby := { lobby0 with
  CurrentVideo := some vidA,
  VoteSkip := { lobby0.VoteSkip with
                  Active := true,
                  VideoID := "v1",
                  YesVotes := ⟨[("a", true)]⟩ } }

/-- A queue already holding 100 videos (all from another submitter),
with something playing. -/
def vids100 : List Video := (List.range 100).map (fun i =>
  { ID := "w" ++ toString i, URL := "u", Title := "t", SubmitterID := "z",
    SubmitterName := "Z", Duration := 60 * secondNs,
    WasVoted := false, WasSkipped := false })

def lobbyFull : Lobby := { lobby0 with
  CurrentVideo := some vidA,
  Videos := vids100,
  Users := ⟨[("a", mkUser "a" "A" "ipa")]⟩ }

def bob1 : User := mkUser "ub1" "Bob" "ip1"
def bob2 : User := mkUser "ub2" "Bob" "ip2"
def bob3 : User := mkUser "ub3" "Bob" "ip3"

/-- Lobby after the first two users named Bob joined. -/
def lobbyBobs : Lobby := ((lobby0.AddUser bob1).1.AddUser bob2).1

/-- A clean two-video lobby for the advance witness. -/
def lobbyTwoVids : Lobby := { lobby0 with
  Users := ⟨[("a", mkUser "a" "A" "ipa")]⟩,
  Videos := [vidA, vidB],
  CurrentVideo := none }

/-! ### Association-list map lemmas -/

/-! ### Association-list map lemmas -/

theorem SMap.existsKey_iff {α : Type} (m : SMap α) (k : String) :
    m.ExistsKey k = true ↔ ∃ p ∈ m.entries, p.1 = k := by
  simp [SMap.ExistsKey, List.any_eq_true]

theorem SMap.mem_keys_iff {α : Type} (m : SMap α) (k : String) :
    k ∈ m.keys ↔ m.ExistsKey k = true := by
  rw [SMap.existsKey_iff]
  simp only [SMap.keys, List.mem_map]

theorem SMap.existsKey_Set_of_ne {α : Type} (m : SMap α) {a k : String} (v : α)
    (hne : k ≠ a) : (m.Set a v).ExistsKey k = m.ExistsKey k := by
  rw [Bool.eq_iff_iff, SMap.existsKey_iff, SMap.existsKey_iff]
  simp only [SMap.Set]
  by_cases hex : m.ExistsKey a = true
  · simp only [hex, if_true]
    constructor
    · rintro ⟨q, hq, hk⟩
      obtain ⟨p, hp, rfl⟩ := List.mem_map.mp hq
      by_cases hpa : (p.1 == a) = true
      · rw [if_pos hpa] at hk
        exact absurd hk (Ne.symm hne)
      · rw [if_neg (by simp_all)] at hk
        exact ⟨p, hp, hk⟩
    · rintro ⟨p, hp, hk⟩
      have hpa : ((p.1 == a) = true) = False := by
        simp [hk, hne]
      refine ⟨if (p.1 == a) = true then (a, v) else p, List.mem_map.mpr ⟨p, hp, rfl⟩, ?_⟩
      rw [if_neg (by simp [hpa])]
      exact hk
  · have hex' : m.ExistsKey a = false := by simpa using hex
    simp only [hex', Bool.false_eq_true, if_false]
    constructor
    · rintro ⟨p, hp, hk⟩
      rcases List.mem_cons.mp hp with h | h
      · rw [h] at hk
        exact absurd hk (Ne.symm hne)
      · exact ⟨p, h, hk⟩
    · rintro ⟨p, hp, hk⟩
      exact ⟨p, List.mem_cons_of_mem _ hp, hk⟩

theorem SMap.existsKey_Delete_self {α : Type} (m : SMap α) (a : String) :
    (m.Delete a).ExistsKey a = false := by
  rw [Bool.eq_false_iff]
  intro h
  obtain ⟨p, hp, hk⟩ := (SMap.existsKey_iff _ _).mp h
  simp only [SMap.Delete] at hp
  have := (List.mem_filter.mp hp).2
  rw [hk] at this
  simp at this

theorem SMap.existsKey_Delete_of_ne {α : Type} (m : SMap α) {a k : String}
    (hne : k ≠ a) : (m.Delete a).ExistsKey k = m.ExistsKey k := by
  rw [Bool.eq_iff_iff, SMap.existsKey_iff, SMap.existsKey_iff]
  simp only [SMap.Delete]
  constructor
  · rintro ⟨p, hp, hk⟩
    exact ⟨p, (List.mem_filter.mp hp).1, hk⟩
  · rintro ⟨p, hp, hk⟩
    refine ⟨p, List.mem_filter.mpr ⟨hp, ?_⟩, hk⟩
    rw [hk]
    simp [hne]

theorem SMap.mem_keys_Set {α : Type} {m : SMap α} {a k : String} {v : α}
    (h : k ∈ (m.Set a v).keys) : k = a ∨ k ∈ m.keys := by
  by_cases hka : k = a
  · exact Or.inl hka
  · right
    rw [SMap.mem_keys_iff] at h ⊢
    rwa [SMap.existsKey_Set_of_ne m v hka] at h

theorem SMap.mem_keys_Delete {α : Type} {m : SMap α} {a k : String}
    (h : k ∈ (m.Delete a).keys) : k ≠ a ∧ k ∈ m.keys := by
  by_cases hka : k = a
  · rw [SMap.mem_keys_iff] at h
    rw [hka] at h
    rw [SMap.existsKey_Delete_self] at h
    exact absurd h (by simp)
  · refine ⟨hka, ?_⟩
    rw [SMap.mem_keys_iff] at h ⊢
    rwa [SMap.existsKey_Delete_of_ne m hka] at h

theorem SMap.keys_Clear {α : Type} (m : SMap α) : (m.Clear).keys = [] := rfl

theorem SMap.findSet_aux {α : Type} (v : α) (k : String)
    (es : List (String × α)) (hex : es.any (fun p => p.1 == k) = true) :
    (es.map (fun p => if p.1 == k then (k, v) else p)).find? (fun p => p.1 == k) =
      some (k, v) := by
  induction es with
  | nil => simp at hex
  | cons p t ih =>
    by_cases hpk : (p.1 == k) = true
    · simp only [List.map_cons, if_pos hpk]
      rw [List.find?_cons_of_pos _ (by simp)]
    · have hpk' : (p.1 == k) = false := by simpa using hpk
      rw [List.any_cons] at hex
      simp only [hpk', Bool.false_or] at hex
      simp only [List.map_cons, hpk', Bool.false_eq_true, if_false]
      rw [List.find?_cons_of_neg _ (by simp [hpk'])]
      exact ih hex

theorem SMap.Get_Set_self {α : Type} (m : SMap α) (k : String) (v : α) :
    (m.Set k v).Get k = some v := by
  obtain ⟨es⟩ := m
  simp only [SMap.Set]
  by_cases hex : SMap.ExistsKey ⟨es⟩ k = true
  · simp only [hex, if_true]
    simp only [SMap.Get]
    rw [SMap.findSet_aux v k es (by simpa [SMap.ExistsKey] using hex)]
    rfl
  · have hex' : SMap.ExistsKey (⟨es⟩ : SMap α) k = false := by simpa using hex
    simp only [hex', Bool.false_eq_true, if_false]
    simp [SMap.Get, List.find?_cons]

/-! ### Vote-set disjointness machinery -/

theorem setsDisjoint_record_yes (yes no : SMap Bool) (u : String)
    (h : SetsDisjoint yes no) : SetsDisjoint (yes.Set u true) (no.Delete u) := by
  intro k hk
  rcases SMap.mem_keys_Set hk with rfl | hky
  · exact SMap.existsKey_Delete_self no k
  · by_cases hku : k = u
    · rw [hku]
      exact SMap.existsKey_Delete_self no u
    · rw [SMap.existsKey_Delete_of_ne no hku]
      exact h k hky

theorem setsDisjoint_record_no (yes no : SMap Bool) (u : String)
    (h : SetsDisjoint yes no) : SetsDisjoint (yes.Delete u) (no.Set u true) := by
  intro k hk
  obtain ⟨hku, hky⟩ := SMap.mem_keys_Delete hk
  rw [SMap.existsKey_Set_of_ne no true hku]
  exact h k hky

theorem setsDisjoint_clear (no : SMap Bool) : SetsDisjoint ⟨[]⟩ no := by
  intro k hk
  simp [SMap.keys] at hk

theorem pickNext_VoteMute (l : Lobby) (now : Int) (rnd : Nat) :
    (l.PickNextVideo now rnd).1.VoteMute = l.VoteMute := by
  obtain ⟨i1, i2, i3, i4, i5, i6, i7, i8, i9, i10, i11, i12, vids, cv, pv, vsk, vm, t1, t2, t3⟩ := l
  obtain ⟨w1, w2, w3, w4, act⟩ := vsk
  cases act <;> cases vids <;> rfl

theorem pickNext_skipSets_clean (l : Lobby) (now : Int) (rnd : Nat) :
    (l.PickNextVideo now rnd).1.VoteSkip.Active = false →
      (l.PickNextVideo now rnd).1.VoteSkip.YesVotes.entries = [] ∧
      (l.PickNextVideo now rnd).1.VoteSkip.NoVotes.entries = [] ∨
    (l.PickNextVideo now rnd).1.VoteSkip = l.VoteSkip := by
  obtain ⟨i1, i2, i3, i4, i5, i6, i7, i8, i9, i10, i11, i12, vids, cv, pv, vsk, vm, t1, t2, t3⟩ := l
  obtain ⟨w1, w2, w3, w4, act⟩ := vsk
  cases act <;> cases vids <;> intro h
  · right; rfl
  · right; rfl
  · left; exact ⟨rfl, rfl⟩
  · left; exact ⟨rfl, rfl⟩

theorem endVoteSkip_VoteMute (l : Lobby) (s : Bool) (now : Int) (rnd : Nat) :
    (l.EndVoteSkip s now rnd).1.VoteMute = l.VoteMute := by
  obtain ⟨i1, i2, i3, i4, i5, i6, i7, i8, i9, i10, i11, i12, vids, cv, pv, vsk, vm, t1, t2, t3⟩ := l
  cases cv with
  | none => rfl
  | some c =>
    cases s with
    | false => rfl
    | true =>
      show (Lobby.PickNextVideo _ now rnd).1.VoteMute = vm
      rw [pickNext_VoteMute]

theorem endVoteSkip_skipSets (l : Lobby) (s : Bool) (now : Int) (rnd : Nat) :
    (l.EndVoteSkip s now rnd).1.VoteSkip.YesVotes.entries = [] ∧
    (l.EndVoteSkip s now rnd).1.VoteSkip.NoVotes.entries = [] := by
  exact ⟨rfl, rfl⟩

theorem endVoteSkip_disjoint (l : Lobby) (s : Bool) (now : Int) (rnd : Nat)
    (h : VoteSetsDisjoint l) : VoteSetsDisjoint (l.EndVoteSkip s now rnd).1 := by
  constructor
  · obtain ⟨hy, _⟩ := endVoteSkip_skipSets l s now rnd
    intro k hk
    rw [SMap.keys, hy] at hk
    simp at hk
  · rw [endVoteSkip_VoteMute]
    exact h.2

theorem calcVoteSkip_disjoint (l : Lobby) (now : Int) (rnd : Nat) (r : Lobby × List Event × Bool)
    (h : VoteSetsDisjoint l) (heq : l.CalcVoteSkipResult now rnd = some r) :
    VoteSetsDisjoint r.1 := by
  unfold Lobby.CalcVoteSkipResult at heq
  split at heq
  · cases heq
    exact h
  · split at heq
    · exact absurd heq (by simp)
    · split at heq
      · cases heq
        exact h
      · cases heq
        exact endVoteSkip_disjoint l _ now rnd h

theorem recordSkip_disjoint (l : Lobby) (u : User) (v : String) (now : Int) (rnd : Nat)
    (r : Lobby × List Event × Bool)
    (h : VoteSetsDisjoint l) (heq : l.RecordSkipVote u v now rnd = some r) :
    VoteSetsDisjoint r.1 := by
  unfold Lobby.RecordSkipVote at heq
  split at heq
  · cases heq
    exact h
  · split at heq
    · exact absurd heq (by simp)
    · split at heq
      · cases heq
        exact h
      · split at heq
        · -- yes ballot
          dsimp only [] at heq
          split at heq
          · exact calcVoteSkip_disjoint _ now rnd r
              (by exact ⟨setsDisjoint_record_yes _ _ _ h.1, h.2⟩) heq
          · cases heq
            exact ⟨setsDisjoint_record_yes _ _ _ h.1, h.2⟩
        · -- no ballot
          dsimp only [] at heq
          split at heq
          · exact calcVoteSkip_disjoint _ now rnd r
              (by exact ⟨setsDisjoint_record_no _ _ _ h.1, h.2⟩) heq
          · cases heq
            exact ⟨setsDisjoint_record_no _ _ _ h.1, h.2⟩

theorem endVoteMute_VoteSkip (l : Lobby) (s : Bool) (now : Int) :
    (l.EndVoteMute s now).1.VoteSkip = l.VoteSkip := by
  unfold Lobby.EndVoteMute
  dsimp only []
  split
  · split <;> rfl
  · rfl

theorem endVoteMute_CurrentVideo (l : Lobby) (s : Bool) (now : Int) :
    (l.EndVoteMute s now).1.CurrentVideo = l.CurrentVideo := by
  unfold Lobby.EndVoteMute
  dsimp only []
  split
  · split <;> rfl
  · rfl

theorem endVoteMute_disjoint (l : Lobby) (s : Bool) (now : Int)
    (h : VoteSetsDisjoint l) : VoteSetsDisjoint (l.EndVoteMute s now).1 := by
  constructor
  · rw [endVoteMute_VoteSkip]
    exact h.1
  · intro k hk
    have hy : (l.EndVoteMute s now).1.VoteMute.YesVotes.entries = [] := rfl
    rw [SMap.keys, hy] at hk
    simp at hk

theorem calcVoteMute_disjoint (l : Lobby) (now : Int)
    (h : VoteSetsDisjoint l) : VoteSetsDisjoint (l.CalcVoteMuteResult now).1 := by
  unfold Lobby.CalcVoteMuteResult
  split
  · exact h
  · exact endVoteMute_disjoint l _ now h

theorem recordMute_disjoint (l : Lobby) (u : User) (v : String) (now : Int)
    (h : VoteSetsDisjoint l) : VoteSetsDisjoint (l.RecordMuteVote u v now).1 := by
  unfold Lobby.RecordMuteVote
  split
  · exact h
  · split
    · dsimp only []
      split
      · exact calcVoteMute_disjoint _ now
          (by exact ⟨h.1, setsDisjoint_record_yes _ _ _ h.2⟩)
      · exact ⟨h.1, setsDisjoint_record_yes _ _ _ h.2⟩
    · dsimp only []
      split
      · exact calcVoteMute_disjoint _ now
          (by exact ⟨h.1, setsDisjoint_record_no _ _ _ h.2⟩)
      · exact ⟨h.1, setsDisjoint_record_no _ _ _ h.2⟩

theorem stepRec_disjoint (l : Lobby) (op : RecOp) (h : VoteSetsDisjoint l) :
    VoteSetsDisjoint (l.stepRec op) := by
  cases op with
  | skip u v now rnd =>
    dsimp only [Lobby.stepRec]
    cases heq : l.RecordSkipVote u v now rnd with
    | none => exact h
    | some r => exact recordSkip_disjoint l u v now rnd r h heq
  | mute u v now => exact recordMute_disjoint l u v now h

/-! ### Skip-vote safety invariant machinery -/

theorem pickNext_skipInv (l : Lobby) (now : Int) (rnd : Nat) :
    SkipInv (l.PickNextVideo now rnd).1 := by
  obtain ⟨i1, i2, i3, i4, i5, i6, i7, i8, i9, i10, i11, i12, vids, cv, pv, vsk, vm, t1, t2, t3⟩ := l
  obtain ⟨w1, w2, w3, w4, act⟩ := vsk
  cases act <;> cases vids <;> intro h <;>
    first
      | rfl
      | exact absurd h Bool.false_ne_true

theorem endVoteSkip_skipInv (l : Lobby) (s : Bool) (now : Int) (rnd : Nat) :
    SkipInv (l.EndVoteSkip s now rnd).1 :=
  fun h => absurd h Bool.false_ne_true

theorem calcVoteSkip_skipInv (l : Lobby) (now : Int) (rnd : Nat)
    (r : Lobby × List Event × Bool)
    (h : SkipInv l) (heq : l.CalcVoteSkipResult now rnd = some r) :
    SkipInv r.1 := by
  unfold Lobby.CalcVoteSkipResult at heq
  split at heq
  · cases heq
    exact h
  · split at heq
    · exact absurd heq (by simp)
    · split at heq
      · cases heq
        exact h
      · cases heq
        exact endVoteSkip_skipInv l _ now rnd

theorem recordSkip_skipInv (l : Lobby) (u : User) (v : String) (now : Int) (rnd : Nat)
    (r : Lobby × List Event × Bool)
    (h : SkipInv l) (heq : l.RecordSkipVote u v now rnd = some r) :
    SkipInv r.1 := by
  unfold Lobby.RecordSkipVote at heq
  split at heq
  · cases heq
    exact h
  · split at heq
    · exact absurd heq (by simp)
    · split at heq
      · cases heq
        exact h
      · split at heq <;> dsimp only [] at heq <;> split at heq
        · exact calcVoteSkip_skipInv _ now rnd r (by exact h) heq
        · cases heq
          exact h
        · exact calcVoteSkip_skipInv _ now rnd r (by exact h) heq
        · cases heq
          exact h

theorem calcSkip_isSome (l : Lobby) (now : Int) (rnd : Nat) (h : SkipInv l) :
    l.CalcVoteSkipResult now rnd ≠ none := by
  unfold Lobby.CalcVoteSkipResult
  split
  · simp
  · rename_i hact
    have ha : l.VoteSkip.Active = true := by
      revert hact
      cases l.VoteSkip.Active <;> simp
    obtain ⟨cv, hcv⟩ := Option.isSome_iff_exists.mp (h ha)
    rw [hcv]
    split
    · rename_i hbad
      exact absurd hbad (by simp)
    · split <;> simp

theorem recordSkip_isSome (l : Lobby) (u : User) (v : String) (now : Int) (rnd : Nat)
    (h : SkipInv l) : l.RecordSkipVote u v now rnd ≠ none := by
  unfold Lobby.RecordSkipVote
  split
  · simp
  · rename_i hact
    have ha : l.VoteSkip.Active = true := by
      revert hact
      cases l.VoteSkip.Active <;> simp
    obtain ⟨cv, hcv⟩ := Option.isSome_iff_exists.mp (h ha)
    rw [hcv]
    split
    · rename_i hbad
      exact absurd hbad (by simp)
    · split
      · simp
      · dsimp only []
        split <;> split
        · refine calcSkip_isSome _ now rnd ?_
          intro _
          rfl
        · simp
        · refine calcSkip_isSome _ now rnd ?_
          intro _
          rfl
        · simp

theorem startVoteSkip_skipInv (l : Lobby) (u : User) (now : Int) (h : SkipInv l) :
    SkipInv (l.StartVoteSkip u now).1 := by
  unfold Lobby.StartVoteSkip
  split
  · exact h
  · rename_i hcond
    intro _
    show l.CurrentVideo.isSome = true
    revert hcond
    cases l.CurrentVideo <;> simp

theorem calcVoteMute_skipInv (l : Lobby) (now : Int) (h : SkipInv l) :
    SkipInv (l.CalcVoteMuteResult now).1 := by
  unfold Lobby.CalcVoteMuteResult
  split
  · exact h
  · intro hh
    rw [endVoteMute_VoteSkip] at hh
    show ((l.EndVoteMute _ now).1.CurrentVideo).isSome = true
    rw [endVoteMute_CurrentVideo]
    exact h hh

theorem recordMute_skipInv (l : Lobby) (u : User) (v : String) (now : Int)
    (h : SkipInv l) : SkipInv (l.RecordMuteVote u v now).1 := by
  unfold Lobby.RecordMuteVote
  split
  · exact h
  · split <;> dsimp only [] <;> split
    · exact calcVoteMute_skipInv _ now (by exact h)
    · exact h
    · exact calcVoteMute_skipInv _ now (by exact h)
    · exact h

theorem addVideo_skipInv (l : Lobby) (v : Video) (now : Int) (rnd : Nat)
    (h : SkipInv l) : SkipInv (l.AddVideo v now rnd).1 := by
  unfold Lobby.AddVideo Lobby.Touch
  dsimp only []
  split
  · exact pickNext_skipInv _ now rnd
  · exact h

theorem handleVoteSkipStart_skipInv (l : Lobby) (u : User) (now : Int) (rnd : Nat)
    (h : SkipInv l) : SkipInv (HandleVoteSkipStart l u now rnd).1 := by
  unfold HandleVoteSkipStart
  split
  · exact h
  · split
    · exact h
    · split
      · exact pickNext_skipInv _ now rnd
      · exact startVoteSkip_skipInv l u now h

theorem step_skipInv (l : Lobby) (op : LobbyOp) (h : SkipInv l) :
    SkipInv (l.step op) := by
  cases op with
  | addUser u => exact h
  | removeUser u =>
    dsimp only [Lobby.step, Lobby.RemoveUser]
    split
    · exact h
    · exact h
  | addVideo v now rnd => exact addVideo_skipInv l v now rnd h
  | pickNext now rnd => exact pickNext_skipInv l now rnd
  | startSkip u now => exact startVoteSkip_skipInv l u now h
  | startMute u t now =>
    dsimp only [Lobby.step, Lobby.StartVoteMute]
    split
    · exact h
    · dsimp only []
      split <;> exact h
  | recordSkip u v now rnd =>
    dsimp only [Lobby.step]
    cases heq : l.RecordSkipVote u v now rnd with
    | none => exact h
    | some r => exact recordSkip_skipInv l u v now rnd r h heq
  | recordMute u v now => exact recordMute_skipInv l u v now h
  | calcSkip now rnd =>
    dsimp only [Lobby.step]
    cases heq : l.CalcVoteSkipResult now rnd with
    | none => exact h
    | some r => exact calcVoteSkip_skipInv l now rnd r h heq
  | calcMute now => exact calcVoteMute_skipInv l now h
  | skipStart u now rnd => exact handleVoteSkipStart_skipInv l u now rnd h
  | handleAdd u vid title dur now rnd =>
    dsimp only [Lobby.step, HandleAddVideo]
    split
    · exact h
    · split
      · exact h
      · split
        · exact h
        · split
          · exact h
          · split
            · exact h
            · exact addVideo_skipInv l _ now rnd h
  | touch now => exact h
  | cleanupPlayed now => exact h
  | cleanupMutes now => exact h

theorem run_skipInv (l : Lobby) (ops : List LobbyOp) (h : SkipInv l) :
    SkipInv (l.run ops) := by
  induction ops generalizing l with
  | nil => exact h
  | cons op t ih => exact ih _ (step_skipInv l op h)

/-! ### Skip-vote resolution (C1, C3) -/

theorem endVoteSkip_passToast_mem (l : Lobby) (s : Bool) (now : Int) (rnd : Nat) :
    ((UpdateVoteSkipEnd, formatToast "Vote to skip passed!" ToastSuccess) ∈
        (l.EndVoteSkip s now rnd).2) ↔ s = true := by
  unfold Lobby.EndVoteSkip
  cases s
  · dsimp only []
    split
    · simp [UpdateVoteSkipEnd, formatToast, ToastSuccess, ToastError]
    · simp [UpdateVoteSkipEnd, formatToast, ToastSuccess, ToastError]
  · dsimp only []
    split
    · simp
    · simp

/-- C1: for a lobby with an active skip vote on the playing video,
resolving the vote (the code path shared by the 30-second timeout and by
early quorum) reports the success toast if and only if the yes-vote
count is at least 2 and strictly greater than the no-vote count; a tie
therefore resolves to failure. -/
theorem calcVoteSkipResult_success_iff (l : Lobby) (cv : Video) (now : Int) (rnd : Nat)
    (hact : l.VoteSkip.Active = true)
    (hcv : l.CurrentVideo = some cv)
    (hid : l.VoteSkip.VideoID = cv.ID) :
    ∃ l2 evs, l.CalcVoteSkipResult now rnd = some (l2, evs, true) ∧
      ((UpdateVoteSkipEnd, formatToast "Vote to skip passed!" ToastSuccess) ∈ evs ↔
        (2 ≤ l.VoteSkip.YesVotes.Length ∧
         l.VoteSkip.NoVotes.Length < l.VoteSkip.YesVotes.Length)) := by
  unfold Lobby.CalcVoteSkipResult
  rw [hcv]
  simp only [hact, Bool.not_true, Bool.false_eq_true, if_false, hid, bne_self_eq_false]
  refine ⟨_, _, rfl, ?_⟩
  rw [endVoteSkip_passToast_mem]
  simp [decide_eq_true_eq]

/-- Witness for C1: four members, two yes votes, no no votes, skip vote
active on the playing video. -/
theorem calcVoteSkipResult_success_iff_witness :
    ∃ l2 evs, lobbySkip4Yes2.CalcVoteSkipResult 0 0 = some (l2, evs, true) ∧
      ((UpdateVoteSkipEnd, formatToast "Vote to skip passed!" ToastSuccess) ∈ evs ↔
        (2 ≤ lobbySkip4Yes2.VoteSkip.YesVotes.Length ∧
         lobbySkip4Yes2.VoteSkip.NoVotes.Length < lobbySkip4Yes2.VoteSkip.YesVotes.Length)) :=
  calcVoteSkipResult_success_iff lobbySkip4Yes2 vidA 0 0 rfl rfl rfl

/-! ### Mute-vote resolution (C2) -/

theorem muteToast_ne (n : String) :
    formatToast ("Vote to mute " ++ n ++ " passed!") ToastSuccess ≠
    formatToast ("Vote to mute " ++ n ++ " failed.") ToastError := by
  intro h
  have hl := congrArg String.length h
  simp [formatToast, ToastSuccess, ToastError, String.length_append] at hl
  have h2 : ("success" : String).length = 7 := rfl
  have h3 : ("error" : String).length = 5 := rfl
  have h4 : (" passed!" : String).length = 8 := rfl
  have h5 : (" failed." : String).length = 8 := rfl
  omega

theorem endVoteMute_events (l : Lobby) (s : Bool) (now : Int) :
    (l.EndVoteMute s now).2 =
      [(UpdateVoteMuteEnd,
        if s = true then
          formatToast ("Vote to mute " ++ l.VoteMute.TargetName ++ " passed!") ToastSuccess
        else
          formatToast ("Vote to mute " ++ l.VoteMute.TargetName ++ " failed.") ToastError)] := by
  unfold Lobby.EndVoteMute
  cases s
  · rfl
  · dsimp only []
    split
    · split <;> rfl
    · rename_i hfalse
      exact absurd rfl hfalse

/-- C2 counterexample: four members, an active mute vote with exactly
two yes votes.  The strict-majority rule of the claim demands
floor(4/2)+1 = 3 yes votes, yet the resolution emits the success toast. -/
theorem calcVoteMuteResult_majority_counterexample :
    (lobbyMute4.CalcVoteMuteResult 0).2.1 =
      [(UpdateVoteMuteEnd,
        formatToast ("Vote to mute " ++ lobbyMute4.VoteMute.TargetName ++ " passed!")
          ToastSuccess)] ∧
    ¬ (lobbyMute4.Users.Length / 2 + 1 ≤ lobbyMute4.VoteMute.YesVotes.Length) := by
  constructor
  · rfl
  · decide

/-- C2 (amended): an active mute vote resolves to success exactly when
the yes-vote count reaches `(members + 1) / 2` in truncating integer
division, i.e. the ceiling of half the membership — not the strict
majority floor(n/2)+1 stated by the claim (the two differ for even n). -/
theorem calcVoteMuteResult_success_iff (l : Lobby) (now : Int)
    (hact : l.VoteMute.Active = true) :
    ∃ l2 evs, l.CalcVoteMuteResult now = (l2, evs, true) ∧
      (evs = [(UpdateVoteMuteEnd,
          formatToast ("Vote to mute " ++ l.VoteMute.TargetName ++ " passed!")
            ToastSuccess)] ↔
        (l.Users.Length + 1) / 2 ≤ l.VoteMute.YesVotes.Length) := by
  unfold Lobby.CalcVoteMuteResult
  simp only [hact, Bool.not_true, Bool.false_eq_true, if_false]
  refine ⟨_, _, rfl, ?_⟩
  rw [endVoteMute_events]
  by_cases hq : (l.Users.Length + 1) / 2 ≤ l.VoteMute.YesVotes.Length
  · have hs : decide ((l.Users.Length + 1) / 2 ≤ l.VoteMute.YesVotes.Length) = true := by
      simp [hq]
    simp only [hs, if_true]
    exact iff_of_true (by trivial) hq
  · have hs : decide ((l.Users.Length + 1) / 2 ≤ l.VoteMute.YesVotes.Length) = false := by
      simp [hq]
    simp only [hs, Bool.false_eq_true, if_false]
    refine iff_of_false ?_ hq
    intro h
    have hpair := List.head_eq_of_cons_eq h
    have htoast := congrArg Prod.snd hpair
    exact muteToast_ne l.VoteMute.TargetName htoast.symm

/-- Witness for C2 (amended) at the concrete four-member lobby. -/
theorem calcVoteMuteResult_success_iff_witness :
    ∃ l2 evs, lobbyMute4.CalcVoteMuteResult 0 = (l2, evs, true) ∧
      (evs = [(UpdateVoteMuteEnd,
          formatToast ("Vote to mute " ++ lobbyMute4.VoteMute.TargetName ++ " passed!")
            ToastSuccess)] ↔
        (lobbyMute4.Users.Length + 1) / 2 ≤ lobbyMute4.VoteMute.YesVotes.Length) :=
  calcVoteMuteResult_success_iff lobbyMute4 0 rfl

/-- C3 counterexample: four members, an active skip vote holding one yes
vote; a second yes vote (2 in total, strictly below the claimed
threshold ceil((4+1)/2) = 3) already triggers early resolution (the
vote record is no longer active afterwards). -/
theorem recordSkipVote_early_counterexample :
    ((lobbySkip4.RecordSkipVote (mkUser "b" "B" "ipb") "yes" 0 0).map
        (fun r => r.1.VoteSkip.Active) = some false) ∧
    (lobbySkip4.VoteSkip.YesVotes.Set "b" true).Length + 1 ≤
      (lobbySkip4.Users.Length + 2) / 2 := by
  constructor
  · rfl
  · decide

/-- C3 (amended): with a skip vote active on the playing video,
recording a ballot triggers early resolution (the vote is resolved and
no longer active) exactly when the resulting yes-vote count reaches
`(members + 1) / 2` in truncating integer division (the ceiling of half
the membership), not ceil((members+1)/2). -/
theorem recordSkipVote_early_resolution_iff (l : Lobby) (cv : Video) (u : User)
    (vote : String) (now : Int) (rnd : Nat)
    (hact : l.VoteSkip.Active = true)
    (hcv : l.CurrentVideo = some cv)
    (hid : l.VoteSkip.VideoID = cv.ID) :
    ∃ r, l.RecordSkipVote u vote now rnd = some r ∧
      (r.1.VoteSkip.Active = false ↔
        (l.Users.Length + 1) / 2 ≤
          (if vote == "yes" then l.VoteSkip.YesVotes.Set u.ID true
           else l.VoteSkip.YesVotes.Delete u.ID).Length) := by
  unfold Lobby.RecordSkipVote
  rw [hcv]
  simp only [hact, Bool.not_true, Bool.false_eq_true, if_false, hid, bne_self_eq_false]
  split
  · rename_i hv
    simp only [hv, if_true]
    split
    · rename_i hq
      unfold Lobby.CalcVoteSkipResult
      simp only [hact, Bool.not_true, Bool.false_eq_true, if_false, hid, bne_self_eq_false]
      refine ⟨_, rfl, ?_⟩
      exact iff_of_true rfl hq
    · rename_i hq
      refine ⟨_, rfl, ?_⟩
      refine iff_of_false ?_ hq
      simp [hact]
  · rename_i hv
    have hv' : (vote == "yes") = false := by simpa using hv
    simp only [hv', Bool.false_eq_true, if_false]
    split
    · rename_i hq
      unfold Lobby.CalcVoteSkipResult
      simp only [hact, Bool.not_true, Bool.false_eq_true, if_false, hid, bne_self_eq_false]
      refine ⟨_, rfl, ?_⟩
      exact iff_of_true rfl hq
    · rename_i hq
      refine ⟨_, rfl, ?_⟩
      refine iff_of_false ?_ hq
      simp [hact]

/-- Witness for C3 (amended): the same four-member lobby; a no ballot
from a fresh voter leaves one yes vote, below the threshold 2, so the
vote stays active. -/
theorem recordSkipVote_early_resolution_iff_witness :
    ∃ r, lobbySkip4.RecordSkipVote (mkUser "c" "C" "ipc") "no" 0 0 = some r ∧
      (r.1.VoteSkip.Active = false ↔
        (lobbySkip4.Users.Length + 1) / 2 ≤
          (if ("no" == "yes") then lobbySkip4.VoteSkip.YesVotes.Set "c" true
           else lobbySkip4.VoteSkip.YesVotes.Delete "c").Length) :=
  recordSkipVote_early_resolution_iff lobbySkip4 vidA (mkUser "c" "C" "ipc") "no" 0 0
    rfl rfl rfl

/-! ### Advance (C4, C9) -/

theorem pickNext_active_false (l : Lobby) (now : Int) (rnd : Nat)
    (hact : l.VoteSkip.Active = true) :
    (l.PickNextVideo now rnd).1.VoteSkip.Active = false := by
  obtain ⟨i1, i2, i3, i4, i5, i6, i7, i8, i9, i10, i11, i12, vids, cv, pv, vsk, vm, t1, t2, t3⟩ := l
  obtain ⟨w1, w2, w3, w4, act⟩ := vsk
  cases act
  · exact absurd hact Bool.false_ne_true
  · cases vids <;> rfl

theorem pickNext_videos_length (l : Lobby) (now : Int) (rnd : Nat)
    (hne : l.Videos ≠ []) :
    (l.PickNextVideo now rnd).1.Videos.length + 1 = l.Videos.length := by
  have hie : l.Videos.isEmpty = false := by
    cases hv : l.Videos
    · exact absurd hv hne
    · rfl
  have hpos : 0 < l.Videos.length := by
    cases hv : l.Videos
    · exact absurd hv hne
    · simp
  have hidx : (if (l.Mode == "shuffle") = true then rnd % l.Videos.length else 0) <
      l.Videos.length := by
    split
    · exact Nat.mod_lt _ hpos
    · exact hpos
  unfold Lobby.PickNextVideo
  dsimp only []
  by_cases hact : l.VoteSkip.Active = true
  · simp only [hact, if_true, hie, Bool.false_eq_true, if_false]
    rw [← List.eraseIdx_eq_take_drop_succ, List.length_eraseIdx, if_pos hidx]
    omega
  · have hact2 : l.VoteSkip.Active = false := by simpa using hact
    simp only [hact2, Bool.false_eq_true, if_false, hie]
    rw [← List.eraseIdx_eq_take_drop_succ, List.length_eraseIdx, if_pos hidx]
    omega

/-- C4: advancing with a non-empty queue selects index 0 in linear mode
and the sampled index in shuffle mode, removes exactly that entry from
the queue, records its id in the play history with eligibility one hour
out, makes it the current video, records the play start, re-arms the
completion timer with the video duration, and clears any in-progress
skip vote (active flag false and, given a vote record that is clean
whenever inactive, both vote sets empty). -/
theorem pickNextVideo_nonempty_spec (l : Lobby) (now : Int) (rnd : Nat)
    (hne : l.Videos ≠ [])
    (hrnd : rnd < l.Videos.length)
    (hclean : l.VoteSkip.Active = false →
      l.VoteSkip.YesVotes.entries = [] ∧ l.VoteSkip.NoVotes.entries = []) :
    (l.PickNextVideo now rnd).1.CurrentVideo =
      some (l.Videos.getD (if l.Mode == "shuffle" then rnd else 0) default) ∧
    (l.PickNextVideo now rnd).1.Videos =
      l.Videos.eraseIdx (if l.Mode == "shuffle" then rnd else 0) ∧
    (l.PickNextVideo now rnd).1.PlayedVideos.Get
      (l.Videos.getD (if l.Mode == "shuffle" then rnd else 0) default).ID =
      some (now + hourNs) ∧
    (l.PickNextVideo now rnd).1.VideoStart = now ∧
    (l.PickNextVideo now rnd).1.nextTimerArmed =
      some (l.Videos.getD (if l.Mode == "shuffle" then rnd else 0) default).Duration ∧
    (l.PickNextVideo now rnd).1.VoteSkip.Active = false ∧
    (l.PickNextVideo now rnd).1.VoteSkip.YesVotes.entries = [] ∧
    (l.PickNextVideo now rnd).1.VoteSkip.NoVotes.entries = [] := by
  have hie : l.Videos.isEmpty = false := by
    cases hv : l.Videos
    · exact absurd hv hne
    · rfl
  unfold Lobby.PickNextVideo
  dsimp only []
  by_cases hact : l.VoteSkip.Active = true
  · simp only [hact, if_true, hie, Bool.false_eq_true, if_false]
    by_cases hm : (l.Mode == "shuffle") = true
    · simp only [hm, if_true, Nat.mod_eq_of_lt hrnd, ← List.eraseIdx_eq_take_drop_succ]
      refine ⟨?_, ?_, ?_, ?_, ?_, ?_, ?_, ?_⟩ <;>
        first | exact SMap.Get_Set_self _ _ _ | trivial
    · have hm2 : (l.Mode == "shuffle") = false := by simpa using hm
      simp only [hm2, Bool.false_eq_true, if_false, ← List.eraseIdx_eq_take_drop_succ]
      refine ⟨?_, ?_, ?_, ?_, ?_, ?_, ?_, ?_⟩ <;>
        first | exact SMap.Get_Set_self _ _ _ | trivial
  · have hact2 : l.VoteSkip.Active = false := by simpa using hact
    obtain ⟨hy, hn⟩ := hclean hact2
    simp only [hact2, Bool.false_eq_true, if_false, hie]
    by_cases hm : (l.Mode == "shuffle") = true
    · simp only [hm, if_true, Nat.mod_eq_of_lt hrnd, ← List.eraseIdx_eq_take_drop_succ]
      refine ⟨?_, ?_, ?_, ?_, ?_, ?_, ?_, ?_⟩ <;>
        first | exact SMap.Get_Set_self _ _ _ | exact hact2 | exact hy | exact hn | trivial
    · have hm2 : (l.Mode == "shuffle") = false := by simpa using hm
      simp only [hm2, Bool.false_eq_true, if_false, ← List.eraseIdx_eq_take_drop_succ]
      refine ⟨?_, ?_, ?_, ?_, ?_, ?_, ?_, ?_⟩ <;>
        first | exact SMap.Get_Set_self _ _ _ | exact hact2 | exact hy | exact hn | trivial

/-- Witness for C4: a linear two-video lobby with no active vote. -/
theorem pickNextVideo_nonempty_spec_witness :
    (lobbyTwoVids.PickNextVideo 5 0).1.CurrentVideo =
      some (lobbyTwoVids.Videos.getD (if lobbyTwoVids.Mode == "shuffle" then 0 else 0) default) ∧
    (lobbyTwoVids.PickNextVideo 5 0).1.Videos =
      lobbyTwoVids.Videos.eraseIdx (if lobbyTwoVids.Mode == "shuffle" then 0 else 0) ∧
    (lobbyTwoVids.PickNextVideo 5 0).1.PlayedVideos.Get
      (lobbyTwoVids.Videos.getD (if lobbyTwoVids.Mode == "shuffle" then 0 else 0) default).ID =
      some (5 + hourNs) ∧
    (lobbyTwoVids.PickNextVideo 5 0).1.VideoStart = 5 ∧
    (lobbyTwoVids.PickNextVideo 5 0).1.nextTimerArmed =
      some (lobbyTwoVids.Videos.getD (if lobbyTwoVids.Mode == "shuffle" then 0 else 0) default).Duration ∧
    (lobbyTwoVids.PickNextVideo 5 0).1.VoteSkip.Active = false ∧
    (lobbyTwoVids.PickNextVideo 5 0).1.VoteSkip.YesVotes.entries = [] ∧
    (lobbyTwoVids.PickNextVideo 5 0).1.VoteSkip.NoVotes.entries = [] :=
  pickNextVideo_nonempty_spec lobbyTwoVids 5 0 (by decide) (by decide) (by decide)

/-- C9 counterexample: on an empty queue with an in-progress skip vote,
`PickNextVideo` does more than clear `CurrentVideo` and notify — it also
clears the skip-vote record, so "changes nothing else" fails. -/
theorem pickNextVideo_empty_counterexample :
    lobbyEmptyQueueVote.Videos = [] ∧
    lobbyEmptyQueueVote.VoteSkip.Active = true ∧
    (lobbyEmptyQueueVote.PickNextVideo 0 0).1.VoteSkip ≠ lobbyEmptyQueueVote.VoteSkip := by
  refine ⟨rfl, rfl, ?_⟩
  decide

/-- C9 (amended): advancing with an empty queue never errors: it clears
`CurrentVideo`, emits the plain empty-payload notification, stops the
completion timer, clears any in-progress skip vote, and leaves every
other observable field (queue, members, play history, mute state, mode,
expiry) unchanged; when no skip vote was active the vote record itself
is untouched. -/
theorem pickNextVideo_empty_spec (l : Lobby) (now : Int) (rnd : Nat)
    (he : l.Videos = []) :
    (l.PickNextVideo now rnd).1.CurrentVideo = none ∧
    (l.PickNextVideo now rnd).2 = [("video_update", "")] ∧
    (l.PickNextVideo now rnd).1.Videos = [] ∧
    (l.PickNextVideo now rnd).1.Users = l.Users ∧
    (l.PickNextVideo now rnd).1.UsersBySession = l.UsersBySession ∧
    (l.PickNextVideo now rnd).1.PlayedVideos = l.PlayedVideos ∧
    (l.PickNextVideo now rnd).1.MutesByIP = l.MutesByIP ∧
    (l.PickNextVideo now rnd).1.MuteCooldownsByIP = l.MuteCooldownsByIP ∧
    (l.PickNextVideo now rnd).1.VoteMute = l.VoteMute ∧
    (l.PickNextVideo now rnd).1.Mode = l.Mode ∧
    (l.PickNextVideo now rnd).1.VideoStart = l.VideoStart ∧
    (l.PickNextVideo now rnd).1.ExpiresAt = l.ExpiresAt ∧
    (l.PickNextVideo now rnd).1.nextTimerArmed = none ∧
    (l.PickNextVideo now rnd).1.VoteSkip.Active = false ∧
    (l.VoteSkip.Active = false →
      (l.PickNextVideo now rnd).1.VoteSkip = l.VoteSkip ∧
      (l.PickNextVideo now rnd).1.voteSkipTimerArmed = l.voteSkipTimerArmed) := by
  have hie : l.Videos.isEmpty = true := by rw [he]; rfl
  unfold Lobby.PickNextVideo
  dsimp only []
  by_cases hact : l.VoteSkip.Active = true
  · simp only [hact, if_true, hie, if_true]
    refine ⟨?_, ?_, ?_, ?_, ?_, ?_, ?_, ?_, ?_, ?_, ?_, ?_, ?_, ?_, ?_⟩ <;>
      first
        | exact he
        | trivial
        | exact fun hcontra => absurd hcontra (by simp)
  · have hact2 : l.VoteSkip.Active = false := by simpa using hact
    simp only [hact2, Bool.false_eq_true, if_false, hie, if_true]
    refine ⟨?_, ?_, ?_, ?_, ?_, ?_, ?_, ?_, ?_, ?_, ?_, ?_, ?_, ?_, ?_⟩ <;>
      first
        | exact he
        | exact hact2
        | trivial

/-- Witness for C9 (amended): a fresh lobby with an empty queue. -/
theorem pickNextVideo_empty_spec_witness :
    (lobby0.PickNextVideo 7 3).1.CurrentVideo = none ∧
    (lobby0.PickNextVideo 7 3).2 = [("video_update", "")] ∧
    (lobby0.PickNextVideo 7 3).1.Videos = [] ∧
    (lobby0.PickNextVideo 7 3).1.Users = lobby0.Users ∧
    (lobby0.PickNextVideo 7 3).1.UsersBySession = lobby0.UsersBySession ∧
    (lobby0.PickNextVideo 7 3).1.PlayedVideos = lobby0.PlayedVideos ∧
    (lobby0.PickNextVideo 7 3).1.MutesByIP = lobby0.MutesByIP ∧
    (lobby0.PickNextVideo 7 3).1.MuteCooldownsByIP = lobby0.MuteCooldownsByIP ∧
    (lobby0.PickNextVideo 7 3).1.VoteMute = lobby0.VoteMute ∧
    (lobby0.PickNextVideo 7 3).1.Mode = lobby0.Mode ∧
    (lobby0.PickNextVideo 7 3).1.VideoStart = lobby0.VideoStart ∧
    (lobby0.PickNextVideo 7 3).1.ExpiresAt = lobby0.ExpiresAt ∧
    (lobby0.PickNextVideo 7 3).1.nextTimerArmed = none ∧
    (lobby0.PickNextVideo 7 3).1.VoteSkip.Active = false ∧
    (lobby0.VoteSkip.Active = false →
      (lobby0.PickNextVideo 7 3).1.VoteSkip = lobby0.VoteSkip ∧
      (lobby0.PickNextVideo 7 3).1.voteSkipTimerArmed = lobby0.voteSkipTimerArmed) :=
  pickNextVideo_empty_spec lobby0 7 3 rfl

/-! ### Vote-set disjointness claim (C5) -/

/-- C5: starting from any lobby whose yes/no sets are disjoint (for both
the skip and the mute record), any sequence of recorded skip or mute
ballots keeps them disjoint: a yes ballot inserts into the yes set and
deletes from the no set, a no ballot does the reverse, and resolution
clears both sets. -/
theorem recordVotes_keep_sets_disjoint (l : Lobby) (ops : List RecOp)
    (h : VoteSetsDisjoint l) : VoteSetsDisjoint (l.runRec ops) := by
  induction ops generalizing l with
  | nil => exact h
  | cons op t ih => exact ih _ (stepRec_disjoint l op h)

/-- Witness for C5: a concrete ballot sequence over the four-member
lobby with an active skip vote (the middle ballot resolves the skip
vote early and clears its sets). -/
theorem recordVotes_keep_sets_disjoint_witness :
    VoteSetsDisjoint lobbySkip4 ∧
    VoteSetsDisjoint (lobbySkip4.runRec
      [RecOp.skip (mkUser "b" "B" "ipb") "no" 0 0,
       RecOp.skip (mkUser "c" "C" "ipc") "yes" 0 0,
       RecOp.mute (mkUser "b" "B" "ipb") "yes" 0]) :=
  ⟨by unfold VoteSetsDisjoint SetsDisjoint; decide,
   recordVotes_keep_sets_disjoint lobbySkip4 _
     (by unfold VoteSetsDisjoint SetsDisjoint; decide)⟩

/-! ### Skip-vote safety claim (C10) -/

/-- C10: in every lobby state reachable from a fresh lobby through the
modelled operations (handlers and timer callbacks), an active skip vote
implies a video is playing; consequently `RecordSkipVote` and
`CalcVoteSkipResult`, whose unguarded `CurrentVideo.ID` reads are
modelled as returning `none` on a nil dereference, never return `none`
from such a state. -/
theorem voteSkipActive_implies_currentVideo (mode creatorIP id : String)
    (maxQueue : Nat) (now0 : Int) (ops : List LobbyOp)
    (u : User) (vote : String) (now : Int) (rnd : Nat) :
    (((NewLobby mode maxQueue creatorIP now0 id).run ops).VoteSkip.Active = true →
      ((NewLobby mode maxQueue creatorIP now0 id).run ops).CurrentVideo.isSome = true) ∧
    ((NewLobby mode maxQueue creatorIP now0 id).run ops).RecordSkipVote u vote now rnd ≠
      none ∧
    ((NewLobby mode maxQueue creatorIP now0 id).run ops).CalcVoteSkipResult now rnd ≠
      none := by
  have hinv : SkipInv ((NewLobby mode maxQueue creatorIP now0 id).run ops) :=
    run_skipInv _ ops (fun h => absurd h Bool.false_ne_true)
  exact ⟨hinv, recordSkip_isSome _ u vote now rnd hinv, calcSkip_isSome _ now rnd hinv⟩

/-! ### Enqueue cap (C6) -/

/-- C6: a lobby whose queue already holds 100 videos still accepts a
valid new submission — the enqueue path performs no lobby-wide queue-cap
check (the `LobbyQueueLimit` field is never read), so the queue grows to
101. -/
theorem handleAddVideo_no_lobby_cap :
    lobbyFull.Videos.length = 100 ∧
    (HandleAddVideo lobbyFull (mkUser "a" "A" "ipa") "fresh" "T" (60 * secondNs) 0 0).2.2 =
      AddVideoResult.added ∧
    (HandleAddVideo lobbyFull (mkUser "a" "A" "ipa") "fresh" "T"
        (60 * secondNs) 0 0).1.Videos.length = 101 := by
  exact ⟨rfl, rfl, rfl⟩

/-! ### Duplicate-name suffixing (C7) -/

/-- C7 counterexample: after two users named Bob have joined (the second
stored as "Bob#2"), a third user joining as Bob is suffixed "#2" again —
not "#3" as the claim ("the k-th user receives suffix #k") requires —
because the stored name "Bob#2" no longer matches the base name. -/
theorem addUser_suffix_counterexample :
    ((lobbyBobs.AddUser bob3).2).1.Name = "Bob#2" ∧
    ((lobbyBobs.AddUser bob3).2).1.Name ≠ "Bob#3" := by
  constructor
  · rfl
  · decide

/-- C7 (amended): the joining user's name is suffixed with `#(m+1)`,
where m is the number of existing members whose full stored name matches
the joining name case-insensitively (no suffix when m = 0), and the user
is then registered under their id; no error path exists.  Since suffixed
names no longer match the base name, the third same-name joiner again
receives `#2`. -/
theorem addUser_name_spec (l : Lobby) (u : User) :
    ((l.AddUser u).2.1.Name =
      if (l.Users.entries.filter
            (fun p => strToLower p.2.Name == strToLower u.Name)).length = 0 then u.Name
      else u.Name ++ "#" ++
        toString (1 + (l.Users.entries.filter
            (fun p => strToLower p.2.Name == strToLower u.Name)).length)) ∧
    (l.AddUser u).1.Users.Get u.ID = some (l.AddUser u).2.1 := by
  constructor
  · unfold Lobby.AddUser
    dsimp only []
    by_cases hm : (l.Users.entries.filter
        (fun p => strToLower p.2.Name == strToLower u.Name)).length = 0
    · rw [if_pos hm]
      have h1 : ¬ (1 + (l.Users.entries.filter
          (fun p => strToLower p.2.Name == strToLower u.Name)).length > 1) := by omega
      rw [if_neg h1]
      split <;> rfl
    · rw [if_neg hm]
      have hgt : 1 + (l.Users.entries.filter
          (fun p => strToLower p.2.Name == strToLower u.Name)).length > 1 := by omega
      rw [if_pos hgt]
      split <;> rfl
  · unfold Lobby.AddUser
    dsimp only []
    split <;> split <;> exact SMap.Get_Set_self l.Users u.ID _

/-! ### Instant skip with fewer than two members (C8) -/

/-- C8 counterexample: a single-member lobby whose playing video already
survived a skip vote: starting a skip vote is rejected (outcome
`survived`, state unchanged) instead of resolving immediately to
success as the claim states for every lobby with fewer than two members
and a playing video. -/
theorem handleVoteSkipStart_survived_counterexample :
    lobbySole.Users.Length < 2 ∧
    lobbySole.CurrentVideo.isSome = true ∧
    (HandleVoteSkipStart lobbySole (mkUser "a" "A" "ipa") 0 0).2.2 =
      SkipStartResult.survived ∧
    (HandleVoteSkipStart lobbySole (mkUser "a" "A" "ipa") 0 0).1 = lobbySole := by
  exact ⟨by decide, rfl, rfl, by decide⟩

theorem pickNext_empty_currentVideo (l : Lobby) (now : Int) (rnd : Nat)
    (he : l.Videos = []) : (l.PickNextVideo now rnd).1.CurrentVideo = none := by
  have hie : l.Videos.isEmpty = true := by rw [he]; rfl
  unfold Lobby.PickNextVideo
  dsimp only []
  by_cases hact : l.VoteSkip.Active = true
  · simp only [hact, if_true, hie, if_true]
  · have hact2 : l.VoteSkip.Active = false := by simpa using hact
    simp only [hact2, Bool.false_eq_true, if_false, hie, if_true]

/-- C8 (amended): with fewer than two members and a playing video that
has not already survived a skip vote, starting a skip resolves
immediately to success without collecting votes: the handler reports the
instant skip, the state is exactly the advance of the lobby with its
current video marked skipped, no skip vote is left active, and the
queue advances (empties to nothing playing, or shrinks by one). -/
theorem handleVoteSkipStart_single_member (l : Lobby) (cv : Video) (u : User)
    (now : Int) (rnd : Nat)
    (hcv : l.CurrentVideo = some cv)
    (hwv : cv.WasVoted = false)
    (hm : l.Users.Length < 2) :
    (HandleVoteSkipStart l u now rnd).2.2 = SkipStartResult.instantSkip ∧
    (HandleVoteSkipStart l u now rnd).1 =
      (Lobby.PickNextVideo
        { l with CurrentVideo := some { cv with WasSkipped := true } } now rnd).1 ∧
    (HandleVoteSkipStart l u now rnd).1.VoteSkip.Active = false ∧
    (l.Videos = [] → (HandleVoteSkipStart l u now rnd).1.CurrentVideo = none) ∧
    (l.Videos ≠ [] →
      (HandleVoteSkipStart l u now rnd).1.Videos.length + 1 = l.Videos.length) := by
  unfold HandleVoteSkipStart
  rw [hcv]
  simp only [hwv, Bool.false_eq_true, if_false, if_pos hm]
  refine ⟨by trivial, by trivial, ?_, ?_, ?_⟩
  · obtain ⟨i1, i2, i3, i4, i5, i6, i7, i8, i9, i10, i11, i12, vids, cv0, pv, vsk, vm, t1, t2, t3⟩ := l
    obtain ⟨w1, w2, w3, w4, act⟩ := vsk
    cases act <;> cases vids <;> rfl
  · intro he
    refine pickNext_empty_currentVideo _ now rnd ?_
    exact he
  · intro hne
    refine pickNext_videos_length _ now rnd ?_
    exact hne

/-- Witness for C8 (amended): one member, a fresh playing video, one
queued video. -/
theorem handleVoteSkipStart_single_member_witness :
    (HandleVoteSkipStart lobbySoleFresh (mkUser "a" "A" "ipa") 0 0).2.2 =
      SkipStartResult.instantSkip ∧
    (HandleVoteSkipStart lobbySoleFresh (mkUser "a" "A" "ipa") 0 0).1 =
      (Lobby.PickNextVideo
        { lobbySoleFresh with
            CurrentVideo := some { vidA with WasSkipped := true } } 0 0).1 ∧
    (HandleVoteSkipStart lobbySoleFresh (mkUser "a" "A" "ipa") 0 0).1.VoteSkip.Active =
      false ∧
    (lobbySoleFresh.Videos = [] →
      (HandleVoteSkipStart lobbySoleFresh (mkUser "a" "A" "ipa") 0 0).1.CurrentVideo =
        none) ∧
    (lobbySoleFresh.Videos ≠ [] →
      (HandleVoteSkipStart lobbySoleFresh
          (mkUser "a" "A" "ipa") 0 0).1.Videos.length + 1 =
        lobbySoleFresh.Videos.length) :=
  handleVoteSkipStart_single_member lobbySoleFresh vidA (mkUser "a" "A" "ipa") 0 0
    rfl rfl (by decide)

/-! ### Clean-ballot invariant: justifies the clean-record hypothesis of
the advance specification on every reachable state -/

theorem pickNext_cleanInv (l : Lobby) (now : Int) (rnd : Nat) (h : CleanInv l) :
    CleanInv (l.PickNextVideo now rnd).1 := by
  obtain ⟨i1, i2, i3, i4, i5, i6, i7, i8, i9, i10, i11, i12, vids, cv, pv, vsk, vm, t1, t2, t3⟩ := l
  obtain ⟨w1, w2, w3, w4, act⟩ := vsk
  cases act <;> cases vids
  · exact h
  · exact h
  · exact fun _ => ⟨rfl, rfl⟩
  · exact fun _ => ⟨rfl, rfl⟩

theorem endVoteSkip_cleanInv (l : Lobby) (s : Bool) (now : Int) (rnd : Nat) :
    CleanInv (l.EndVoteSkip s now rnd).1 :=
  fun _ => ⟨rfl, rfl⟩

theorem calcVoteSkip_cleanInv (l : Lobby) (now : Int) (rnd : Nat)
    (r : Lobby × List Event × Bool)
    (h : CleanInv l) (heq : l.CalcVoteSkipResult now rnd = some r) :
    CleanInv r.1 := by
  unfold Lobby.CalcVoteSkipResult at heq
  split at heq
  · cases heq
    exact h
  · split at heq
    · exact absurd heq (by simp)
    · split at heq
      · cases heq
        exact h
      · cases heq
        exact endVoteSkip_cleanInv l _ now rnd

theorem recordSkip_cleanInv (l : Lobby) (u : User) (v : String) (now : Int) (rnd : Nat)
    (r : Lobby × List Event × Bool)
    (h : CleanInv l) (heq : l.RecordSkipVote u v now rnd = some r) :
    CleanInv r.1 := by
  unfold Lobby.RecordSkipVote at heq
  split at heq
  · cases heq
    exact h
  · rename_i hact
    have ha : l.VoteSkip.Active = true := by
      revert hact
      cases l.VoteSkip.Active <;> simp
    split at heq
    · exact absurd heq (by simp)
    · split at heq
      · cases heq
        exact h
      · split at heq <;> dsimp only [] at heq <;> split at heq
        · exact calcVoteSkip_cleanInv _ now rnd r
            (fun hf => absurd (ha ▸ hf) (by simp)) heq
        · cases heq
          exact fun hf => absurd (ha ▸ hf) (by simp)
        · exact calcVoteSkip_cleanInv _ now rnd r
            (fun hf => absurd (ha ▸ hf) (by simp)) heq
        · cases heq
          exact fun hf => absurd (ha ▸ hf) (by simp)

theorem startVoteSkip_cleanInv (l : Lobby) (u : User) (now : Int) (h : CleanInv l) :
    CleanInv (l.StartVoteSkip u now).1 := by
  unfold Lobby.StartVoteSkip
  split
  · exact h
  · intro hf
    exact absurd hf (by simp)

theorem calcVoteMute_cleanInv (l : Lobby) (now : Int) (h : CleanInv l) :
    CleanInv (l.CalcVoteMuteResult now).1 := by
  unfold Lobby.CalcVoteMuteResult
  split
  · exact h
  · intro hf
    rw [endVoteMute_VoteSkip] at hf ⊢
    exact h hf

theorem recordMute_cleanInv (l : Lobby) (u : User) (v : String) (now : Int)
    (h : CleanInv l) : CleanInv (l.RecordMuteVote u v now).1 := by
  unfold Lobby.RecordMuteVote
  split
  · exact h
  · split <;> dsimp only [] <;> split
    · exact calcVoteMute_cleanInv _ now (by exact h)
    · exact h
    · exact calcVoteMute_cleanInv _ now (by exact h)
    · exact h

theorem addVideo_cleanInv (l : Lobby) (v : Video) (now : Int) (rnd : Nat)
    (h : CleanInv l) : CleanInv (l.AddVideo v now rnd).1 := by
  unfold Lobby.AddVideo Lobby.Touch
  dsimp only []
  split
  · exact pickNext_cleanInv _ now rnd (by exact h)
  · exact h

theorem handleVoteSkipStart_cleanInv (l : Lobby) (u : User) (now : Int) (rnd : Nat)
    (h : CleanInv l) : CleanInv (HandleVoteSkipStart l u now rnd).1 := by
  unfold HandleVoteSkipStart
  split
  · exact h
  · split
    · exact h
    · split
      · exact pickNext_cleanInv _ now rnd (by exact h)
      · exact startVoteSkip_cleanInv l u now h

theorem step_cleanInv (l : Lobby) (op : LobbyOp) (h : CleanInv l) :
    CleanInv (l.step op) := by
  cases op with
  | addUser u => exact h
  | removeUser u =>
    dsimp only [Lobby.step, Lobby.RemoveUser]
    split
    · exact h
    · exact h
  | addVideo v now rnd => exact addVideo_cleanInv l v now rnd h
  | pickNext now rnd => exact pickNext_cleanInv l now rnd h
  | startSkip u now => exact startVoteSkip_cleanInv l u now h
  | startMute u t now =>
    dsimp only [Lobby.step, Lobby.StartVoteMute]
    split
    · exact h
    · dsimp only []
      split <;> exact h
  | recordSkip u v now rnd =>
    dsimp only [Lobby.step]
    cases heq : l.RecordSkipVote u v now rnd with
    | none => exact h
    | some r => exact recordSkip_cleanInv l u v now rnd r h heq
  | recordMute u v now => exact recordMute_cleanInv l u v now h
  | calcSkip now rnd =>
    dsimp only [Lobby.step]
    cases heq : l.CalcVoteSkipResult now rnd with
    | none => exact h
    | some r => exact calcVoteSkip_cleanInv l now rnd r h heq
  | calcMute now => exact calcVoteMute_cleanInv l now h
  | skipStart u now rnd => exact handleVoteSkipStart_cleanInv l u now rnd h
  | handleAdd u vid title dur now rnd =>
    dsimp only [Lobby.step, HandleAddVideo]
    split
    · exact h
    · split
      · exact h
      · split
        · exact h
        · split
          · exact h
          · split
            · exact h
            · exact addVideo_cleanInv l _ now rnd h
  | touch now => exact h
  | cleanupPlayed now => exact h
  | cleanupMutes now => exact h

/-- Every reachable lobby state has clean ballot sets whenever no skip
vote is active, discharging the clean-record hypothesis of the advance
specification. -/
theorem run_cleanInv (mode creatorIP id : String) (maxQueue : Nat) (now0 : Int)
    (ops : List LobbyOp) :
    CleanInv ((NewLobby mode maxQueue creatorIP now0 id).run ops) := by
  have step : ∀ l (t : List LobbyOp), CleanInv l → CleanInv (l.run t) := by
    intro l t
    induction t generalizing l with
    | nil => exact fun h => h
    | cons op t2 ih => exact fun h => ih _ (step_cleanInv l op h)
  exact step _ ops (fun _ => ⟨rfl, rfl⟩)

end TestDJ
